import Mathlib

/-!
Verification of the client-side authentication/session subsystem of the
Personalized-Nutrition-System-For-Diabetic-Patients front end: the zustand
session store (src/frontend/src/stores/authStore.js), the shared axios
client with its request/response interceptors (src/unnamed/part_001), the
auth API adapter (src/unnamed/part_000), the route guards
(src/frontend/src/App.jsx) and the registration flow
(src/frontend/src/pages/Register.jsx).

Durable local storage is modelled as a record of the two session keys
(dd_token, dd_user).  The JSON codec is modelled at the abstraction level
the code uses it at: the dd_user entry is either the JSON.stringify image of
a user record, the string "null", or some other string that is not valid
JSON (on which JSON.parse throws a SyntaxError).  JavaScript truthiness of
strings (null and the empty string are falsy) is modelled explicitly.
-/

namespace DiabetesDiet

/-- A resolved user record as returned by GET /api/v1/auth/me and stored
under the dd_user key: id, email, full_name, role. -/
structure User where
  id : Nat
  email : String
  full_name : String
  role : String
deriving DecidableEq, Repr

/-- Content of the durable-storage dd_user entry, at the abstraction level
of the JSON codec: the JSON.stringify image of a user record, the string
"null", or a string that is not valid JSON. -/
inductive UserStr where
  | jsonOf (u : User)
  | jnull
  | invalid (s : String)
deriving DecidableEq, Repr

/-- Durable local storage restricted to the two session keys the store
owns.  A field holding none models an absent key. -/
structure Storage where
  dd_token : Option String
  dd_user : Option UserStr
deriving DecidableEq, Repr

/-- In-memory session state of the zustand store: token and user, each
possibly null. -/
structure Session where
  token : Option String
  user : Option User
deriving DecidableEq, Repr

/-- JavaScript truthiness of a localStorage.getItem result: null and the
empty string are falsy, every other string is truthy. -/
def truthy : Option String → Bool
  | none => false
  | some s => s != ""

/-- The JavaScript exception relevant to this subsystem: the SyntaxError
thrown by JSON.parse on a string that is not valid JSON. -/
inductive JsException where
  | parseError
deriving DecidableEq, Repr

/-- JSON.parse applied to the content of the dd_user entry. -/
def jsonParse : UserStr → Except JsException (Option User)
  | .jsonOf u => .ok (some u)
  | .jnull => .ok none
  | .invalid _ => .error .parseError

/-- The module-load read of authStore.js lines 3-6 (the spec names it
initialize): token is getItem dd_token coerced to null when absent or
falsy; user is JSON.parse of (getItem dd_user, or the string "null" when
the entry is absent or falsy).  The code wraps the parse in no try/catch,
so a parse failure propagates as a thrown exception. -/
def stored (st : Storage) : Except JsException Session :=
  let token : Option String :=
    match st.dd_token with
    | none => none
    | some t => if t = "" then none else some t
  let userStr : UserStr :=
    match st.dd_user with
    | none => .jnull
    | some (.invalid s) => if s = "" then .jnull else .invalid s
    | some other => other
  match jsonParse userStr with
  | .error e => .error e
  | .ok u => .ok { token := token, user := u }

/-- Combined state of the session subsystem: the in-memory zustand state
and the durable-storage mirror. -/
structure StoreState where
  mem : Session
  st : Storage
deriving DecidableEq, Repr

/-- setAuth from authStore.js: persist both keys, then set both fields of
the in-memory state. -/
def setAuth (token : String) (user : User) (s : StoreState) : StoreState :=
  let st1 : Storage := { s.st with dd_token := some token }
  let st2 : Storage := { st1 with dd_user := some (.jsonOf user) }
  { st := st2, mem := { token := some token, user := some user } }

/-- logout from authStore.js: remove both keys, then clear both fields of
the in-memory state. -/
def logout (s : StoreState) : StoreState :=
  let st1 : Storage := { s.st with dd_token := none }
  let st2 : Storage := { st1 with dd_user := none }
  { st := st2, mem := { token := none, user := none } }

/-- updateUser from authStore.js: persist the new user record and replace
it in memory, leaving the token untouched in both layers. -/
def updateUser (user : User) (s : StoreState) : StoreState :=
  { st := { s.st with dd_user := some (.jsonOf user) },
    mem := { s.mem with user := some user } }

/-- The empty session: nothing in memory, nothing in storage. -/
def emptyState : StoreState :=
  { mem := { token := none, user := none },
    st := { dd_token := none, dd_user := none } }

/-- Outcome of a route guard: render the children, or redirect (the source
always redirects with replace); dest is the Navigate target path. -/
inductive Decision where
  | render
  | redirect (dest : String)
deriving DecidableEq, Repr

/-- The optional-chaining read user?.role: undefined when user is null. -/
def optRole : Option User → Option String
  | none => none
  | some u => some u.role

/-- RequireAuth from App.jsx: render the children when the token is
truthy, otherwise redirect to /login. -/
def RequireAuth (token : Option String) : Decision :=
  if truthy token then .render else .redirect "/login"

/-- RequireInvestigator from App.jsx: no token redirects to /login; a
role other than investigator (including an absent user) redirects to
/dashboard; otherwise render. -/
def RequireInvestigator (token : Option String) (user : Option User) : Decision :=
  if !truthy token then .redirect "/login"
  else if optRole user ≠ some "investigator" then .redirect "/dashboard"
  else .render

/-- RequirePatient from App.jsx: no token redirects to /login; the
investigator role redirects to /investigator; otherwise render. -/
def RequirePatient (token : Option String) (user : Option User) : Decision :=
  if !truthy token then .redirect "/login"
  else if optRole user = some "investigator" then .redirect "/investigator"
  else .render

/-- PublicOnly from App.jsx: no token renders the children; otherwise
redirect by role to /investigator or /dashboard. -/
def PublicOnly (token : Option String) (user : Option User) : Decision :=
  if !truthy token then .render
  else .redirect (if optRole user = some "investigator" then "/investigator" else "/dashboard")

/-- Outgoing request configuration as the request interceptor sees it; only
the Authorization header is relevant here. -/
structure Config where
  authorization : Option String
deriving DecidableEq, Repr

/-- Request interceptor of the shared axios client: read dd_token from
durable storage; when truthy, set the Authorization header to Bearer plus
the token; otherwise leave the configuration untouched. -/
def requestInterceptor (st : Storage) (cfg : Config) : Config :=
  match st.dd_token with
  | none => cfg
  | some t => if t = "" then cfg else { cfg with authorization := some ("Bearer " ++ t) }

/-- A failed axios call: an HTTP error response carrying a status, or a
failure with no response at all (network error or timeout). -/
inductive AxiosErr where
  | response (status : Nat)
  | network
deriving DecidableEq, Repr

/-- The optional-chaining test err.response?.status === 401. -/
def is401 : AxiosErr → Bool
  | .response s => s == 401
  | .network => false

/-- A browser-visible side effect issued by the response interceptor. -/
inductive Effect where
  | removeItem (key : String)
  | setLocation (url : String)
deriving DecidableEq, Repr

/-- Error branch of client.interceptors.response: when the status is
exactly 401, remove dd_token, then remove dd_user, then set
window.location.href to /login; in every case return Promise.reject(err)
with the same error.  The result is the storage after the handler, the
effect trace in issue order, and the rejected error. -/
def responseError (e : AxiosErr) (st : Storage) : Storage × List Effect × AxiosErr :=
  if is401 e then
    let st1 : Storage := { st with dd_token := none }
    let st2 : Storage := { st1 with dd_user := none }
    (st2,
     [Effect.removeItem "dd_token", Effect.removeItem "dd_user",
      Effect.setLocation "/login"], e)
  else (st, [], e)

/-- HTTP method of a request issued by the auth API adapter. -/
inductive Method where
  | get
  | post
  | put
  | del
deriving DecidableEq, Repr

/-- Registration form state in Register.jsx. -/
structure RegForm where
  full_name : String
  email : String
  password : String
  role : String
deriving DecidableEq, Repr

/-- A JavaScript value as passed to the auth adapter from the pages:
undefined (an omitted argument), a string, or the registration-form
object. -/
inductive JsValue where
  | undef
  | str (s : String)
  | formObj (f : RegForm)
deriving DecidableEq, Repr

/-- JavaScript template-literal coercion to a string: undefined prints as
the string undefined, objects via the default Object toString. -/
def jsToString : JsValue → String
  | .undef => "undefined"
  | .str s => s
  | .formObj _ => "[object Object]"

/-- Body of an outgoing request: URLSearchParams form data, or the
JavaScript object handed to axios for JSON serialization. -/
inductive Body where
  | form (fields : List (String × String))
  | json (fields : List (String × JsValue))
deriving DecidableEq, Repr

/-- An outgoing HTTP request as assembled by the auth API adapter. -/
structure Request where
  method : Method
  url : String
  contentType : Option String
  authorization : Option String
  body : Option Body
deriving DecidableEq, Repr

/-- Backend base address when VITE_API_BASE_URL is unset (the local
development default). -/
def API_BASE : String := "http://localhost:8000"

/-- authApi.login from src/unnamed/part_000: a POST to /api/v1/auth/login
whose body is URLSearchParams form data with username and password
appended in that order, sent with the form-urlencoded content type. -/
def login (email password : String) : Request :=
  { method := .post
    url := API_BASE ++ "/api/v1/auth/login"
    contentType := some "application/x-www-form-urlencoded"
    authorization := none
    body := some (.form [("username", email), ("password", password)]) }

/-- authApi.me from src/unnamed/part_000: a GET to /api/v1/auth/me whose
Authorization header is the template literal Bearer followed by the token
argument; a call with no argument passes undefined. -/
def me (token : JsValue) : Request :=
  { method := .get
    url := API_BASE ++ "/api/v1/auth/me"
    contentType := none
    authorization := some ("Bearer " ++ jsToString token)
    body := none }

/-- authApi.register from src/unnamed/part_000: a JSON POST to
/api/v1/auth/register with fields email, password, full_name, role, where
the role parameter has JS default value patient (applied when the argument
is undefined). -/
def register (email password fullName roleArg : JsValue) : Request :=
  let role : JsValue :=
    match roleArg with
    | .undef => .str "patient"
    | r => r
  { method := .post
    url := API_BASE ++ "/api/v1/auth/register"
    contentType := some "application/json"
    authorization := none
    body := some (.json [("email", email), ("password", password),
                         ("full_name", fullName), ("role", role)]) }

/-- One step of the Register.jsx submit flow: an HTTP request through the
auth adapter, the setAuth call on the session store, or the navigate
call. -/
inductive FlowStep where
  | httpRequest (r : Request)
  | storeSetAuth (token : String) (user : User)
  | navigateTo (path : String)
deriving DecidableEq, Repr

/-- Client-side validation at the top of handleSubmit in Register.jsx: all
three text fields non-empty and a password of at least 8 characters. -/
def regFormValid (f : RegForm) : Bool :=
  !(f.full_name == "" || f.email == "" || f.password == "") &&
    decide (8 ≤ f.password.length)

/-- The step trace of handleSubmit in Register.jsx on the path where every
awaited call succeeds, parameterised by the access token of the login
response and the user record of the me response.  The code calls
authApi.register with the whole form object as its single argument (the
remaining parameters are therefore undefined), then logs in, then calls
authApi.me with no argument, then populates the store and navigates by
role. -/
def handleSubmit (f : RegForm) (accessToken : String) (meUser : User) : List FlowStep :=
  if !regFormValid f then []
  else
    [FlowStep.httpRequest (register (.formObj f) .undef .undef .undef),
     FlowStep.httpRequest (login f.email f.password),
     FlowStep.httpRequest (me .undef),
     FlowStep.storeSetAuth accessToken meUser,
     FlowStep.navigateTo (if meUser.role == "investigator" then "/investigator" else "/dashboard")]

/-- One call on the session store, for reasoning about call sequences. -/
inductive Op where
  | opSetAuth (token : String) (user : User)
  | opLogout
  | opUpdateUser (user : User)
deriving DecidableEq, Repr

/-- Apply one store call to the combined state. -/
def applyOp (s : StoreState) : Op → StoreState
  | .opSetAuth t u => setAuth t u s
  | .opLogout => logout s
  | .opUpdateUser u => updateUser u s

/-- Run a sequence of store calls from a starting state. -/
def runOps (s : StoreState) (ops : List Op) : StoreState :=
  ops.foldl applyOp s

/-- Token and user both present or both absent, in the in-memory state and
in the two durable-storage entries. -/
def paired (s : StoreState) : Bool :=
  (s.mem.token.isSome == s.mem.user.isSome) &&
    (s.st.dd_token.isSome == s.st.dd_user.isSome)

/-- The claim's constraint on sequences: every setAuth call carries a
non-empty token. -/
def setAuthTokensNonempty : List Op → Bool
  | [] => true
  | op :: rest =>
    (match op with
     | .opSetAuth t _ => !(t == "")
     | _ => true) && setAuthTokensNonempty rest

/-- Per-call precondition of the amended pairing claim: setAuth carries a
non-empty token, and updateUser is only invoked while a token is present
in memory. -/
def opPre (s : StoreState) : Op → Bool
  | .opSetAuth t _ => !(t == "")
  | .opLogout => true
  | .opUpdateUser _ => s.mem.token.isSome

/-- A sequence of store calls is valid from a state when every call meets
its precondition in the state it actually executes in. -/
def validOps : StoreState → List Op → Bool
  | _, [] => true
  | s, op :: rest => opPre s op && validOps (applyOp s op) rest

/-- Strengthened invariant used to prove pairing: memory and storage agree
on presence of the token grid and of the user, and memory itself is
paired. -/
def coherent (s : StoreState) : Bool :=
  (s.mem.token.isSome == s.st.dd_token.isSome) &&
    (s.mem.user.isSome == s.st.dd_user.isSome) &&
    (s.mem.token.isSome == s.mem.user.isSome)

/-- Sample patient user record. -/
def uPat : User := { id := 1, email := "p@x.y", full_name := "Pat", role := "patient" }

/-- Sample investigator user record. -/
def uInv : User := { id := 2, email := "i@x.y", full_name := "Inv", role := "investigator" }

/-- Sample user record with a role outside the two known ones. -/
def uAdm : User := { id := 3, email := "a@x.y", full_name := "Adm", role := "admin" }

/-- C4: the claim says the initial storage read is defensive and total, in
particular that a dd_user entry holding a string that is not valid JSON
yields a logged-out session without throwing, and that a token present
without a user entry is treated as logged out.  The code does neither:
JSON.parse is not wrapped in try/catch, so an invalid dd_user entry makes
the read throw a SyntaxError, and a stored token with no user entry
survives the read as a half session whose token is set. -/
theorem C4_storage_read_not_defensive :
    stored { dd_token := none, dd_user := some (.invalid "not valid json") } =
      .error JsException.parseError ∧
    stored { dd_token := some "tok123", dd_user := none } =
      .ok { token := some "tok123", user := none } :=
  ⟨rfl, rfl⟩

/-- C5: durable round-trip — for every non-empty token t and user record
u, setAuth t u followed by re-running the durable-storage read (the reload
simulation) yields exactly the session (t, u). -/
theorem C5_durable_round_trip (t : String) (u : User) (s : StoreState) (ht : t ≠ "") :
    stored (setAuth t u s).st = .ok { token := some t, user := some u } := by
  simp [stored, setAuth, jsonParse, ht]

/-- Witness for C5 at the concrete token abc123 and the sample patient
record, starting from the empty state. -/
theorem C5_durable_round_trip_witness :
    stored (setAuth "abc123" uPat emptyState).st =
      .ok { token := some "abc123", user := some uPat } :=
  C5_durable_round_trip "abc123" uPat emptyState (by decide)

/-- C6: header injection — when the durable-storage token entry holds a
(truthy) token t at dispatch time, the request interceptor sets the
Authorization header to Bearer followed by t; when no token is stored, the
configuration passes through untouched, so a fresh request keeps no
Authorization header. -/
theorem C6_header_injection (st : Storage) (cfg : Config) :
    (∀ t, st.dd_token = some t → t ≠ "" →
      (requestInterceptor st cfg).authorization = some ("Bearer " ++ t)) ∧
    (st.dd_token = none → requestInterceptor st cfg = cfg) := by
  constructor
  · intro t h ht
    simp [requestInterceptor, h, ht]
  · intro h
    simp [requestInterceptor, h]

/-- Witness for C6: with the stored token abc123 a fresh request carries
Authorization Bearer abc123, and with no stored token a fresh request
keeps its absent Authorization header. -/
theorem C6_header_injection_witness :
    (requestInterceptor { dd_token := some "abc123", dd_user := none }
        { authorization := none }).authorization = some "Bearer abc123" ∧
    (requestInterceptor { dd_token := none, dd_user := none }
        { authorization := none }).authorization = none := by
  refine ⟨?_, ?_⟩
  · exact (C6_header_injection
      { dd_token := some "abc123", dd_user := none }
      { authorization := none }).1 "abc123" rfl (by decide)
  · exact congrArg Config.authorization
      ((C6_header_injection
        { dd_token := none, dd_user := none }
        { authorization := none }).2 rfl)

/-- C7: login wire format — for every email and password, authApi.login
issues a POST to /api/v1/auth/login whose body is form data (content type
application/x-www-form-urlencoded, not JSON) holding exactly the fields
username (the email) and password. -/
theorem C7_login_wire_format (e p : String) :
    (login e p).method = Method.post ∧
    (login e p).url = API_BASE ++ "/api/v1/auth/login" ∧
    (login e p).contentType = some "application/x-www-form-urlencoded" ∧
    (login e p).body = some (Body.form [("username", e), ("password", p)]) :=
  ⟨rfl, rfl, rfl, rfl⟩

/-- C8: idempotent logout — from every combined state, logout twice equals
logout once (in memory and in durable storage, as a total function that
raises nothing), and logout on the empty session is a no-op. -/
theorem C8_idempotent_logout (s : StoreState) :
    logout (logout s) = logout s ∧ logout emptyState = emptyState :=
  ⟨rfl, rfl⟩

/-- C1: the four route guards are pure functions of (token, role) matching
the 4 by 3 table: with no token, RequireAuth, RequirePatient and
RequireInvestigator redirect to /login and PublicOnly renders; with a
token and role patient, RequireAuth and RequirePatient render while
RequireInvestigator and PublicOnly redirect to /dashboard; with a token
and role investigator, RequireAuth and RequireInvestigator render while
RequirePatient and PublicOnly redirect to /investigator; and with a token
but the role absent (no user) or unknown, RequirePatient renders and
PublicOnly redirects to /dashboard (the patient home), with no crash. -/
theorem C1_guard_matrix (t : String) (ht : t ≠ "") (uP uI uX : User)
    (anyU : Option User)
    (hP : uP.role = "patient") (hI : uI.role = "investigator")
    (hX1 : uX.role ≠ "patient") (hX2 : uX.role ≠ "investigator") :
    (RequireAuth none = .redirect "/login" ∧
     RequireAuth (some t) = .render) ∧
    (RequirePatient none anyU = .redirect "/login" ∧
     RequirePatient (some t) (some uP) = .render ∧
     RequirePatient (some t) (some uI) = .redirect "/investigator") ∧
    (RequireInvestigator none anyU = .redirect "/login" ∧
     RequireInvestigator (some t) (some uP) = .redirect "/dashboard" ∧
     RequireInvestigator (some t) (some uI) = .render) ∧
    (PublicOnly none anyU = .render ∧
     PublicOnly (some t) (some uP) = .redirect "/dashboard" ∧
     PublicOnly (some t) (some uI) = .redirect "/investigator") ∧
    (RequirePatient (some t) none = .render ∧
     RequirePatient (some t) (some uX) = .render ∧
     PublicOnly (some t) none = .redirect "/dashboard" ∧
     PublicOnly (some t) (some uX) = .redirect "/dashboard") := by
  simp [RequireAuth, RequirePatient, RequireInvestigator, PublicOnly,
    truthy, optRole, ht, hP, hI, hX2]

/-- Witness for C1: one cell of the table at the concrete token tok and
the sample records (role patient, role investigator, unknown role admin) —
the unknown-role cell of RequirePatient renders. -/
theorem C1_guard_matrix_witness :
    RequirePatient (some "tok") (some uAdm) = Decision.render :=
  (C1_guard_matrix "tok" (by decide) uPat uInv uAdm none
    rfl rfl (by decide) (by decide)).2.2.2.2.2.1

/-- C2: forced logout on 401 — the error branch of the response
interceptor always rejects with the very error it received; exactly when
the status is 401 it removes dd_token, then dd_user, and only then sets
the location to /login (the trace equality pins that order, with both
removals before the redirect), leaving the storage with both entries
gone; on any other failure (403, 500, network error, timeout) the storage
is untouched and no effect is issued. -/
theorem C2_forced_logout_on_401 (e : AxiosErr) (st : Storage) :
    ((responseError e st).2.2 = e) ∧
    (is401 e = true →
      (responseError e st).1 = { dd_token := none, dd_user := none } ∧
      (responseError e st).2.1 =
        [Effect.removeItem "dd_token", Effect.removeItem "dd_user",
         Effect.setLocation "/login"]) ∧
    (is401 e = false →
      (responseError e st).1 = st ∧ (responseError e st).2.1 = []) ∧
    ((Effect.removeItem "dd_token" ∈ (responseError e st).2.1 ∧
      Effect.removeItem "dd_user" ∈ (responseError e st).2.1) ↔ is401 e = true) := by
  by_cases h : is401 e = true
  · simp [responseError, h]
  · simp [responseError, h]

/-- Witness for C2: a 401 response clears both storage entries, and a 500
response leaves a populated storage untouched. -/
theorem C2_forced_logout_on_401_witness :
    (responseError (AxiosErr.response 401)
        { dd_token := some "abc123", dd_user := some (.jsonOf uPat) }).1 =
      { dd_token := none, dd_user := none } ∧
    (responseError (AxiosErr.response 500)
        { dd_token := some "abc123", dd_user := some (.jsonOf uPat) }).1 =
      { dd_token := some "abc123", dd_user := some (.jsonOf uPat) } := by
  refine ⟨?_, ?_⟩
  · exact ((C2_forced_logout_on_401 (AxiosErr.response 401)
      { dd_token := some "abc123", dd_user := some (.jsonOf uPat) }).2.1 rfl).1
  · exact ((C2_forced_logout_on_401 (AxiosErr.response 500)
      { dd_token := some "abc123", dd_user := some (.jsonOf uPat) }).2.2.1 rfl).1

/-- C9: in the registration flow, after the register and login requests,
authApi.me is invoked with no token argument (undefined), and this happens
before the storeSetAuth step populates the session store; the resulting
GET /api/v1/auth/me request therefore carries the literal Authorization
header Bearer undefined instead of the freshly obtained access token. -/
theorem C9_register_flow_unauthenticated_me (f : RegForm) (tok : String)
    (u : User) (hv : regFormValid f = true) :
    (handleSubmit f tok u).get? 2 = some (FlowStep.httpRequest (me JsValue.undef)) ∧
    (handleSubmit f tok u).get? 3 = some (FlowStep.storeSetAuth tok u) ∧
    (me JsValue.undef).method = Method.get ∧
    (me JsValue.undef).url = API_BASE ++ "/api/v1/auth/me" ∧
    (me JsValue.undef).authorization = some "Bearer undefined" := by
  simp [handleSubmit, hv, me, jsToString]

/-- Sample registration form: valid fields, with the investigator role
selected. -/
def regF : RegForm :=
  { full_name := "Pat", email := "p@x.y", password := "longenough", role := "investigator" }

/-- Witness for C9 at a concrete valid form, access token and me
response. -/
theorem C9_register_flow_unauthenticated_me_witness :
    (handleSubmit regF "tok123" uPat).get? 2 =
      some (FlowStep.httpRequest (me JsValue.undef)) ∧
    (me JsValue.undef).authorization = some "Bearer undefined" := by
  have h := C9_register_flow_unauthenticated_me regF "tok123" uPat (by decide)
  exact ⟨h.1, h.2.2.2.2⟩

/-- C10: every successful submission of the registration form calls
authApi.register with the whole form object as its single argument, so the
JSON body of POST /api/v1/auth/register carries the form object in the
email field, undefined in password and full_name, and the default role
patient regardless of the role picked in the form. -/
theorem C10_register_sends_form_as_email (f : RegForm) (tok : String)
    (u : User) (hv : regFormValid f = true) :
    (handleSubmit f tok u).get? 0 =
      some (FlowStep.httpRequest
        (register (JsValue.formObj f) JsValue.undef JsValue.undef JsValue.undef)) ∧
    (register (JsValue.formObj f) JsValue.undef JsValue.undef JsValue.undef).method =
      Method.post ∧
    (register (JsValue.formObj f) JsValue.undef JsValue.undef JsValue.undef).url =
      API_BASE ++ "/api/v1/auth/register" ∧
    (register (JsValue.formObj f) JsValue.undef JsValue.undef JsValue.undef).body =
      some (Body.json
        [("email", JsValue.formObj f), ("password", JsValue.undef),
         ("full_name", JsValue.undef), ("role", JsValue.str "patient")]) := by
  simp [handleSubmit, hv, register]

/-- Witness for C10 at a concrete valid form whose selected role is
investigator: the role field sent is still patient. -/
theorem C10_register_sends_form_as_email_witness :
    (register (JsValue.formObj regF)
        JsValue.undef JsValue.undef JsValue.undef).body =
      some (Body.json
        [("email", JsValue.formObj regF),
         ("password", JsValue.undef), ("full_name", JsValue.undef),
         ("role", JsValue.str "patient")]) :=
  (C10_register_sends_form_as_email regF "tok123" uPat (by decide)).2.2.2

/-- Coherence implies the pairing property observed by the claim. -/
lemma coherent_paired (s : StoreState) (h : coherent s = true) : paired s = true := by
  simp only [coherent, Bool.and_eq_true, beq_iff_eq] at h
  obtain ⟨⟨h1, h2⟩, h3⟩ := h
  simp only [paired, Bool.and_eq_true, beq_iff_eq]
  refine ⟨h3, ?_⟩
  rw [← h1, ← h2]
  exact h3

/-- Coherence is preserved by every store call that meets its
precondition. -/
lemma coherent_applyOp (s : StoreState) (op : Op) (h : coherent s = true)
    (hpre : opPre s op = true) : coherent (applyOp s op) = true := by
  cases op with
  | opSetAuth t u => simp [applyOp, setAuth, coherent]
  | opLogout => simp [applyOp, logout, coherent]
  | opUpdateUser u =>
    simp only [coherent, Bool.and_eq_true, beq_iff_eq] at h
    simp only [opPre] at hpre
    simp only [applyOp, updateUser, coherent, Bool.and_eq_true, beq_iff_eq,
      Option.isSome_some]
    exact ⟨⟨h.1.1, trivial⟩, hpre⟩

/-- Coherence holds at every observation point of a valid run. -/
lemma coherent_runOps_take (ops : List Op) :
    ∀ (s : StoreState) (n : Nat), coherent s = true → validOps s ops = true →
      coherent (runOps s (ops.take n)) = true := by
  induction ops with
  | nil =>
    intro s n hc _
    simpa [runOps] using hc
  | cons op rest ih =>
    intro s n hc hv
    simp [validOps] at hv
    cases n with
    | zero => simpa [runOps] using hc
    | succ m =>
      simp [List.take, runOps]
      have hstep := coherent_applyOp s op hc hv.1
      simpa [runOps] using ih (applyOp s op) m hstep hv.2

/-- C3 counterexample: the claim as stated fails on the code — from the
empty session, the one-call sequence updateUser uPat (which contains no
setAuth call at all, so the non-empty-token constraint holds vacuously)
leaves a state with the user present and the token absent, in memory and
in storage. -/
theorem C3_pairing_counterexample :
    setAuthTokensNonempty [Op.opUpdateUser uPat] = true ∧
    paired (runOps emptyState [Op.opUpdateUser uPat]) = false := by
  decide

/-- C3 amended: starting from the empty session, for every finite sequence
of setAuth (non-empty token), logout and updateUser calls in which each
updateUser executes while a token is present, every observation point
(every prefix of the run) shows the token and the user both present or
both absent, in memory and in the two durable-storage entries. -/
theorem C3_pairing_amended (ops : List Op)
    (h : validOps emptyState ops = true) (n : Nat) :
    paired (runOps emptyState (ops.take n)) = true :=
  coherent_paired _ (coherent_runOps_take ops emptyState n (by decide) h)

/-- Witness for C3 amended: a concrete valid three-call sequence, observed
after its second call. -/
theorem C3_pairing_amended_witness :
    validOps emptyState
      [Op.opSetAuth "tok123" uPat, Op.opUpdateUser uInv, Op.opLogout] = true ∧
    paired (runOps emptyState
      ([Op.opSetAuth "tok123" uPat, Op.opUpdateUser uInv, Op.opLogout].take 2)) = true :=
  ⟨by decide,
   C3_pairing_amended
     [Op.opSetAuth "tok123" uPat, Op.opUpdateUser uInv, Op.opLogout]
     (by decide) 2⟩

end DiabetesDiet
